import Mathlib

/-!
Verification of the `send-chat-message` edge-function source
(`supabase/functions/send-chat-message/index.ts`).  The file contains three
handlers: a first relay implementation (relay v1), a second relay
implementation with semantic classification of 2xx webhook responses
(relay v2), and a diagnostics handler.  We give a shallow embedding of the
three handlers as pure Lean functions over explicit oracles for the external
collaborators (request-body parsing, Supabase query results, environment
variables, the outbound webhook call, and the clock), and prove the stated
properties about them.
-/

namespace SendChat

/-- Model of a parsed JSON value (the result of `JSON.parse`). -/
inductive Json where
  | null
  | bool (b : Bool)
  | num (n : Int)
  | str (s : String)
  | arr (items : List Json)
  | obj (fields : List (String × Json))
deriving Repr

/-- First-match association lookup, used for JavaScript property access on
parsed objects built in this model (all constructed objects have distinct
keys). -/
def lookupList : List (String × Json) → String → Option Json
  | [], _ => none
  | (k', v) :: rest, k => if k' == k then some v else lookupList rest k

/-- Pure property lookup: `none` models JavaScript `undefined` (missing
property, or property access on a primitive). -/
def Json.lookup : Json → String → Option Json
  | .obj fields, k => lookupList fields k
  | _, _ => none

/-- JavaScript truthiness of a JSON value. -/
def Json.truthy : Json → Bool
  | .null => false
  | .bool b => b
  | .num n => n != 0
  | .str s => s != ""
  | .arr _ => true
  | .obj _ => true

/-- Truthiness of a possibly-`undefined` value (`undefined` is falsy). -/
def truthyOpt : Option Json → Bool
  | none => false
  | some j => j.truthy

/-- JavaScript property access with fault: accessing a property of `null`
throws a `TypeError`; on every other JSON value it yields the property value
or `undefined`. -/
def Json.getProp : Json → String → Except Unit (Option Json)
  | .null, _ => .error ()
  | .obj fields, k => .ok (lookupList fields k)
  | _, _ => .ok none

/-- `a` is an exact character-list match at the head of `b`. -/
def startsWithList : List Char → List Char → Bool
  | [], _ => true
  | _ :: _, [] => false
  | a :: as, b :: bs => a == b && startsWithList as bs

/-- Character-list substring containment. -/
def listContains (needle : List Char) : List Char → Bool
  | [] => startsWithList needle []
  | c :: rest => startsWithList needle (c :: rest) || listContains needle rest

/-- Model of JavaScript `s.includes(sub)` for strings. -/
def containsSub (s sub : String) : Bool :=
  listContains sub.toList s.toList

/-- The apology substring the relay v2 scans for in webhook responses. -/
def apologySubstr : String := "Sorry, I encountered an error"

/-- Evaluation of the callback `item.text && item.text.includes(apology)`
passed to `Array.prototype.some`, with JavaScript fault semantics:
property access on a `null` element throws, and `.includes` called on a
truthy non-string non-array value throws; arrays have their own `includes`
(exact-element membership). -/
def itemTextCheck (item : Json) : Except Unit Bool := do
  let t ← item.getProp "text"
  if truthyOpt t then
    match t with
    | some (.str s) => .ok (containsSub s apologySubstr)
    | some (.arr es) =>
        .ok (es.any (fun e => match e with | .str s => s == apologySubstr | _ => false))
    | _ => .error ()
  else
    .ok false

/-- `Array.prototype.some` with a fallible callback: left-to-right,
short-circuiting at the first `true`, propagating the first fault. -/
def anyThrow : List Json → Except Unit Bool
  | [] => .ok false
  | it :: rest => do
      let b ← itemTextCheck it
      if b then .ok true else anyThrow rest

/-- Evaluation of the relay v2 error-detection condition
`parsedResponse.error || (parsedResponse.output &&
parsedResponse.output.some(item => item.text && item.text.includes(...)))`,
with JavaScript fault semantics (a fault is an exception thrown during the
evaluation, caught by the surrounding `try`). -/
def evalSemanticCheck (j : Json) : Except Unit Bool := do
  let e ← j.getProp "error"
  if truthyOpt e then
    .ok true
  else do
    let o ← j.getProp "output"
    if truthyOpt o then
      match o with
      | some (.arr items) => anyThrow items
      | _ => .error ()
    else
      .ok false

/-- The three outcome classes of a webhook dispatch in relay v2. -/
inductive Outcome where
  | transportFailure
  | semanticFailure
  | success
deriving DecidableEq, Repr

/-- `Response.ok` of the Fetch API: status in 200..299. -/
def statusOk (st : Nat) : Bool :=
  decide (200 ≤ st) && decide (st < 300)

/-- Relay v2 classification of a dispatch result: non-2xx status is a
transport failure; a 2xx body that fails to parse as JSON (`bodyJson =
none`), or whose error-detection check throws, is a success; a 2xx body
whose check evaluates to `true` is a semantic failure. -/
def classifyV2 (st : Nat) (bodyJson : Option Json) : Outcome :=
  if statusOk st then
    match bodyJson with
    | none => .success
    | some j =>
        match evalSemanticCheck j with
        | .ok true => .semanticFailure
        | _ => .success
  else
    .transportFailure

/-! ## Relay data model -/

/-- A row of the `sources` table as selected by the relay
(`select('id, processing_status')`). -/
structure SourceRow where
  id : String
  processing_status : String

/-- The destructured request body `{ session_id, message, user_id }`.
`none` models an absent field; an empty string, like an absent field, is
falsy in the `!session_id || !message` validation. -/
structure ReqBody where
  session_id : Option String
  message : Option String
  user_id : Option String

/-- JavaScript truthiness of a possibly-absent string value. -/
def truthyS : Option String → Bool
  | none => false
  | some s => s != ""

/-- The environment values read through `Deno.env.get`. -/
structure EnvConfig where
  notebookChatUrl : Option String
  notebookGenerationAuth : Option String
  supabaseUrl : Option String
  supabaseServiceKey : Option String

/-- The webhook response observed by the relay: HTTP status, raw text body,
and the result of `JSON.parse` on that body (`none` when parsing throws). -/
structure WebhookResp where
  status : Nat
  bodyText : String
  bodyJson : Option Json

/-- All the external observations one relay request can make: the request
body parse (`.error` when `req.json()` throws, carrying `error.message`),
the notebook and sources query results, the human-message insert result,
the environment, the webhook call (`.error` when `fetch` throws), the clock
value, the catch-handler re-parse `req.clone().json()`, and whether the
compensating history insert in the catch handler itself faults. -/
structure RelayInput where
  reqBody : Except (Option String) ReqBody
  notebookData : Option Json
  notebookError : Option String
  sourcesData : Option (List SourceRow)
  sourcesError : Option String
  userInsertError : Option String
  env : EnvConfig
  webhook : Except (Option String) WebhookResp
  now : String
  cloneParse : Except (Option String) ReqBody
  compensatingInsertFails : Bool

/-- A row inserted into `n8n_chat_histories`. -/
structure HistoryInsert where
  session_id : String
  msgType : String
  content : Json
  additional_kwargs : Json
  response_metadata : Json

/-- The externally visible effects a handler issues, in order. -/
inductive Effect where
  | queryNotebook (id : String)
  | querySources (id : String)
  | insertHistory (row : HistoryInsert)
  | dispatchCall (url : String)
  | queryDocuments (id : String)
  | queryChatHistory (id : String)

/-- A handler outcome: HTTP status, JSON response body, and the ordered
effect trace. -/
structure RelayOutput where
  status : Nat
  body : Json
  effects : List Effect

/-- The assistant-message content envelope
`{output: [{text, citations: []}]}`. -/
def aiEnvelope (text : String) : Json :=
  .obj [("output", .arr [.obj [("text", .str text), ("citations", .arr [])]])]

/-- Response body of the 400 validation error, with the per-field
truthiness flags `{ session_id: !!session_id, message: !!message }`. -/
def validationBody (sidT msgT : Bool) : Json :=
  .obj [("error", .str "session_id and message are required"),
        ("details", .obj [("session_id", .bool sidT), ("message", .bool msgT)])]

/-- Response body of the 404 notebook error; `details` is dropped by
`JSON.stringify` when `notebookError?.message` is `undefined`. -/
def notFoundBody (err : Option String) : Json :=
  .obj ([("error", .str "Notebook not found or access denied")] ++
        (match err with | some m => [("details", .str m)] | none => []))

/-- Response body of the 500 sources-read failure. -/
def sourcesFailBody (m : String) : Json :=
  .obj [("error", .str "Failed to check notebook sources"),
        ("details", .str m)]

/-- Response body of the 400 no-processed-sources error. -/
def ineligibleBody : Json :=
  .obj [("error", .str "No processed sources available for this notebook"),
        ("details", .str "Please wait for sources to finish processing before chatting")]

/-- Response body of the 500 missing `NOTEBOOK_CHAT_URL` error. -/
def configUrlBody : Json :=
  .obj [("error", .str "Chat service not configured"),
        ("details", .str "NOTEBOOK_CHAT_URL environment variable not set")]

/-- Response body of the 500 missing `NOTEBOOK_GENERATION_AUTH` error. -/
def configAuthBody : Json :=
  .obj [("error", .str "Chat service authentication not configured"),
        ("details", .str "NOTEBOOK_GENERATION_AUTH environment variable not set")]

/-- Response body of the 500 non-2xx webhook failure. -/
def transportBody (st : Nat) (errText : String) : Json :=
  .obj [("error", .str ("n8n webhook failed with status: " ++ toString st)),
        ("details", .str errText),
        ("suggestion", .str "Check your n8n workflow configuration and credentials")]

/-- Response body of the success envelope. -/
def successBody (data : String) : Json :=
  .obj [("success", .bool true),
        ("message", .str "Message sent to chat service successfully"),
        ("data", .str data)]

/-- Response body of the relay v2 semantic-failure 500. -/
def semanticBody (j : Json) : Json :=
  .obj [("success", .bool false),
        ("error", .str "n8n workflow returned an error"),
        ("details", .str "Check the chat for debugging information"),
        ("n8n_response", j)]

/-- `x || d` for a possibly-absent string: the default is used when the
value is `undefined` or empty (both falsy). -/
def orDefault : Option String → String → String
  | some s, d => if s != "" then s else d
  | none, d => d

/-- Response body of the outermost catch handler
(`error.message || 'Failed to send message to chat service'`). -/
def catchBody (msg : Option String) : Json :=
  .obj [("error", .str (orDefault msg "Failed to send message to chat service")),
        ("details", .str "Check the function logs for more information")]

/-- The human-message history row. -/
def humanInsert (sid msg : String) : HistoryInsert :=
  { session_id := sid, msgType := "human", content := .str msg,
    additional_kwargs := .obj [], response_metadata := .obj [] }

/-- The assistant error row written on a non-2xx webhook status. -/
def transportInsert (sid : String) (st : Nat) : HistoryInsert :=
  { session_id := sid, msgType := "ai",
    content := aiEnvelope
      ("Sorry, I encountered an error processing your request. The chat service responded with status "
        ++ toString st ++ ". Please check your n8n configuration and try again."),
    additional_kwargs := .obj [],
    response_metadata := .obj [("error", .bool true), ("status", .num st)] }

/-- The guidance text of the relay v2 semantic-failure assistant row. -/
def semanticGuidanceText : String :=
  "I'm having trouble accessing your sources right now. This could be due to:\n\n1. **Sources still processing** - Please wait for all sources to finish processing\n2. **n8n workflow configuration** - Check your n8n Chat workflow credentials and connections\n3. **Vector store issues** - Verify your Supabase vector store is properly configured\n4. **Missing API keys** - Ensure OpenAI and other required API keys are set in n8n\n\nPlease check your n8n workflow logs for more details."

/-- The assistant error row written on a relay v2 semantic failure. -/
def semanticInsert (sid : String) (j : Json) (now : String) : HistoryInsert :=
  { session_id := sid, msgType := "ai",
    content := aiEnvelope semanticGuidanceText,
    additional_kwargs := .obj [],
    response_metadata := .obj [("error", .bool true), ("n8n_response", j),
                               ("timestamp", .str now)] }

/-- The assistant error row written by the outermost catch handler; a
thrown value without a message interpolates as the string `undefined`, and
the `errorMessage` metadata field is dropped by `JSON.stringify` when
`error.message` is `undefined`. -/
def techErrorInsert (sid : String) (msg : Option String) : HistoryInsert :=
  { session_id := sid, msgType := "ai",
    content := aiEnvelope
      ("Sorry, I encountered a technical error: "
        ++ (match msg with | some s => s | none => "undefined")
        ++ ". Please try again or contact support if the issue persists."),
    additional_kwargs := .obj [],
    response_metadata :=
      .obj ([("error", .bool true)] ++
            (match msg with | some s => [("errorMessage", .str s)] | none => [])) }

/-- `sources?.some(source => source.processing_status === 'completed') || false`. -/
def sourcesHasCompleted : Option (List SourceRow) → Bool
  | some rows => rows.any (fun r => r.processing_status == "completed")
  | none => false

/-- The result of the `try` block of a relay handler: either a completed
response or a thrown fault (carrying the effects already issued and the
fault's `error.message`). -/
inductive CoreResult where
  | done (out : RelayOutput)
  | thrown (effects : List Effect) (msg : Option String)

/-- The `try` block of relay v2 (the second `serve` handler), stage by
stage: field validation, notebook lookup, sources check, human-message
insert, environment checks, webhook dispatch, transport-failure handling,
and semantic classification of a 2xx response. -/
def serveV2Core (inp : RelayInput) : CoreResult :=
  match inp.reqBody with
  | .error m => .thrown [] m
  | .ok body =>
    if !truthyS body.session_id || !truthyS body.message then
      .done { status := 400,
              body := validationBody (truthyS body.session_id) (truthyS body.message),
              effects := [] }
    else
      let sid := body.session_id.getD ""
      let msg := body.message.getD ""
      let effs1 := [Effect.queryNotebook sid]
      if inp.notebookError.isSome || inp.notebookData.isNone then
        .done { status := 404, body := notFoundBody inp.notebookError, effects := effs1 }
      else
        let effs2 := effs1 ++ [Effect.querySources sid]
        match inp.sourcesError with
        | some m => .done { status := 500, body := sourcesFailBody m, effects := effs2 }
        | none =>
          if !sourcesHasCompleted inp.sourcesData then
            .done { status := 400, body := ineligibleBody, effects := effs2 }
          else
            let effs3 := effs2 ++ [Effect.insertHistory (humanInsert sid msg)]
            if !truthyS inp.env.notebookChatUrl then
              .done { status := 500, body := configUrlBody, effects := effs3 }
            else if !truthyS inp.env.notebookGenerationAuth then
              .done { status := 500, body := configAuthBody, effects := effs3 }
            else
              let effs4 := effs3 ++ [Effect.dispatchCall (inp.env.notebookChatUrl.getD "")]
              match inp.webhook with
              | .error m => .thrown effs4 m
              | .ok resp =>
                if !statusOk resp.status then
                  .done { status := 500,
                          body := transportBody resp.status resp.bodyText,
                          effects := effs4 ++
                            [Effect.insertHistory (transportInsert sid resp.status)] }
                else
                  match resp.bodyJson with
                  | none => .done { status := 200, body := successBody resp.bodyText,
                                    effects := effs4 }
                  | some j =>
                    match evalSemanticCheck j with
                    | .ok true =>
                        .done { status := 500, body := semanticBody j,
                                effects := effs4 ++
                                  [Effect.insertHistory (semanticInsert sid j inp.now)] }
                    | _ => .done { status := 200, body := successBody resp.bodyText,
                                   effects := effs4 }

/-- The `try` block of relay v1 (the first `serve` handler), identical to
relay v2 except that a 2xx webhook response is returned as the success
envelope without semantic classification. -/
def serveV1Core (inp : RelayInput) : CoreResult :=
  match inp.reqBody with
  | .error m => .thrown [] m
  | .ok body =>
    if !truthyS body.session_id || !truthyS body.message then
      .done { status := 400,
              body := validationBody (truthyS body.session_id) (truthyS body.message),
              effects := [] }
    else
      let sid := body.session_id.getD ""
      let msg := body.message.getD ""
      let effs1 := [Effect.queryNotebook sid]
      if inp.notebookError.isSome || inp.notebookData.isNone then
        .done { status := 404, body := notFoundBody inp.notebookError, effects := effs1 }
      else
        let effs2 := effs1 ++ [Effect.querySources sid]
        match inp.sourcesError with
        | some m => .done { status := 500, body := sourcesFailBody m, effects := effs2 }
        | none =>
          if !sourcesHasCompleted inp.sourcesData then
            .done { status := 400, body := ineligibleBody, effects := effs2 }
          else
            let effs3 := effs2 ++ [Effect.insertHistory (humanInsert sid msg)]
            if !truthyS inp.env.notebookChatUrl then
              .done { status := 500, body := configUrlBody, effects := effs3 }
            else if !truthyS inp.env.notebookGenerationAuth then
              .done { status := 500, body := configAuthBody, effects := effs3 }
            else
              let effs4 := effs3 ++ [Effect.dispatchCall (inp.env.notebookChatUrl.getD "")]
              match inp.webhook with
              | .error m => .thrown effs4 m
              | .ok resp =>
                if !statusOk resp.status then
                  .done { status := 500,
                          body := transportBody resp.status resp.bodyText,
                          effects := effs4 ++
                            [Effect.insertHistory (transportInsert sid resp.status)] }
                else
                  .done { status := 200, body := successBody resp.bodyText,
                          effects := effs4 }

/-- The outermost catch handler shared (textually) by both relay
implementations: best-effort re-extraction of the request body via
`req.clone().json()`, a best-effort compensating assistant error insert
when a truthy `session_id` is recovered (its own faults are swallowed by
the inner `try`), then the generic 500 error response. -/
def catchHandler (inp : RelayInput) (effs : List Effect) (msg : Option String) :
    RelayOutput :=
  let effs2 :=
    match inp.cloneParse with
    | .ok b =>
        if truthyS b.session_id then
          effs ++ [Effect.insertHistory (techErrorInsert (b.session_id.getD "") msg)]
        else effs
    | .error _ => effs
  { status := 500, body := catchBody msg, effects := effs2 }

/-- Relay v2 end to end. -/
def serveV2 (inp : RelayInput) : RelayOutput :=
  match serveV2Core inp with
  | .done out => out
  | .thrown effs msg => catchHandler inp effs msg

/-- Relay v1 end to end. -/
def serveV1 (inp : RelayInput) : RelayOutput :=
  match serveV1Core inp with
  | .done out => out
  | .thrown effs msg => catchHandler inp effs msg

/-! ## Diagnostics handler model -/

/-- A row of the `sources` table as projected by the diagnostics handler. -/
structure DiagSourceRow where
  id : String
  title : String
  processing_status : String

/-- A row of `n8n_chat_histories` as read by the diagnostics handler
(`id` plus the stored `message` JSON). -/
structure ChatRow where
  id : Int
  message : Json

/-- External observations of one diagnostics request: the request body
parse (`.ok` carries the `notebookId` field), the clock, the environment,
and the four query results (the documents query is reduced to its row
identifiers, only the count being used). -/
structure DiagInput where
  reqBody : Except (Option String) (Option String)
  now : String
  env : EnvConfig
  notebookData : Option Json
  notebookError : Option String
  sourcesData : Option (List DiagSourceRow)
  sourcesError : Option String
  documentsData : Option (List String)
  documentsError : Option String
  chatData : Option (List ChatRow)
  chatError : Option String

/-- An optional object field, dropped by `JSON.stringify` when the value is
`undefined`. -/
def optField (k : String) : Option Json → List (String × Json)
  | some j => [(k, j)]
  | none => []

/-- `xs?.length || 0`. -/
def countOf {α : Type} : Option (List α) → Int
  | some l => l.length
  | none => 0

/-- `Deno.env.get('NOTEBOOK_CHAT_URL') || 'NOT_SET'`. -/
def urlShown (u : Option String) : String :=
  match u with
  | some s => if s != "" then s else "NOT_SET"
  | none => "NOT_SET"

/-- The `environment` section of the diagnostics report. -/
def envSection (env : EnvConfig) : Json :=
  .obj [("hasNotebookChatUrl", .bool (truthyS env.notebookChatUrl)),
        ("hasNotebookGenerationAuth", .bool (truthyS env.notebookGenerationAuth)),
        ("hasSupabaseUrl", .bool (truthyS env.supabaseUrl)),
        ("hasSupabaseServiceKey", .bool (truthyS env.supabaseServiceKey)),
        ("notebookChatUrl", .str (urlShown env.notebookChatUrl))]

/-- The `notebook` section: existence flag, optional error message, and the
raw row (JSON `null` when the lookup returned no row). -/
def notebookSection (d : Option Json) (e : Option String) : Json :=
  .obj ([("exists", .bool d.isSome)] ++
        optField "error" (e.map Json.str) ++
        [("data", d.getD Json.null)])

/-- `sources?.some(s => s.processing_status === 'completed') || false` of
the diagnostics handler. -/
def diagHasCompleted : Option (List DiagSourceRow) → Bool
  | some rows => rows.any (fun r => r.processing_status == "completed")
  | none => false

/-- The `sources` section: count, optional error, optional per-source
projection, and the completed-source flag. -/
def sourcesSection (d : Option (List DiagSourceRow)) (e : Option String) : Json :=
  .obj ([("count", .num (countOf d))] ++
        optField "error" (e.map Json.str) ++
        optField "statuses"
          (d.map (fun rows => Json.arr (rows.map (fun r =>
            .obj [("id", .str r.id), ("title", .str r.title),
                  ("status", .str r.processing_status)])))) ++
        [("hasCompleted", .bool (diagHasCompleted d))])

/-- The `vectorStore` section: document count, optional error, and the
documents-present flag. -/
def vectorStoreSection (d : Option (List String)) (e : Option String) : Json :=
  .obj ([("documentCount", .num (countOf d))] ++
        optField "error" (e.map Json.str) ++
        [("hasDocuments", .bool (decide (0 < countOf d)))])

/-- `msg.message?.response_metadata?.error || false`: JavaScript `||`
returns the left value verbatim when truthy, else `false`. -/
def chatHadError (m : Json) : Json :=
  match (m.lookup "response_metadata").bind (fun rm => rm.lookup "error") with
  | some j => if j.truthy then j else .bool false
  | none => .bool false

/-- The per-message projection `{id, type, hasError}` of the recent-history
section (`type` is dropped when `msg.message?.type` is `undefined`). -/
def chatProj (r : ChatRow) : Json :=
  .obj ([("id", .num r.id)] ++
        optField "type" (r.message.lookup "type") ++
        [("hasError", chatHadError r.message)])

/-- The `chatHistory` section. -/
def chatHistorySection (c : Option (List ChatRow)) (e : Option String) : Json :=
  .obj ([("messageCount", .num (countOf c))] ++
        optField "error" (e.map Json.str) ++
        optField "recentMessages" (c.map (fun rows => Json.arr (rows.map chatProj))))

/-- The six remediation strings, in source order. -/
def recText1 : String := "Set NOTEBOOK_CHAT_URL in Supabase Edge Function secrets"

/-- Remediation string for the missing shared secret. -/
def recText2 : String := "Set NOTEBOOK_GENERATION_AUTH in Supabase Edge Function secrets"

/-- Remediation string for a missing notebook. -/
def recText3 : String := "Notebook not found - check the notebook ID"

/-- Remediation string for no completed source. -/
def recText4 : String := "No completed sources found - wait for source processing to complete"

/-- Remediation string for an empty vector store. -/
def recText5 : String := "No documents in vector store - check if sources were properly processed and embedded"

/-- Remediation string for a webhook URL that fails the substring check. -/
def recText6 : String := "NOTEBOOK_CHAT_URL should be a valid n8n webhook URL"

/-- The remediation list, built by the six `if (...) push(...)` statements
in their source order. -/
def diagRecommendations (inp : DiagInput) : List String :=
  (if !truthyS inp.env.notebookChatUrl then [recText1] else []) ++
  (if !truthyS inp.env.notebookGenerationAuth then [recText2] else []) ++
  (if !inp.notebookData.isSome then [recText3] else []) ++
  (if !diagHasCompleted inp.sourcesData then [recText4] else []) ++
  (if !decide (0 < countOf inp.documentsData) then [recText5] else []) ++
  (if urlShown inp.env.notebookChatUrl != "" &&
      !containsSub (urlShown inp.env.notebookChatUrl) "webhook"
   then [recText6] else [])

/-- `recommendations.length === 0 ? 'HEALTHY' : 'ISSUES_FOUND'`. -/
def diagOverallStatus (inp : DiagInput) : String :=
  if (diagRecommendations inp).length == 0 then "HEALTHY" else "ISSUES_FOUND"

/-- The full diagnostics report object, keys in insertion order. -/
def diagReportBody (inp : DiagInput) (nbId : String) : Json :=
  .obj [("notebookId", .str nbId),
        ("timestamp", .str inp.now),
        ("environment", envSection inp.env),
        ("notebook", notebookSection inp.notebookData inp.notebookError),
        ("sources", sourcesSection inp.sourcesData inp.sourcesError),
        ("vectorStore", vectorStoreSection inp.documentsData inp.documentsError),
        ("chatHistory", chatHistorySection inp.chatData inp.chatError),
        ("recommendations", .arr ((diagRecommendations inp).map Json.str)),
        ("overallStatus", .str (diagOverallStatus inp))]

/-- The diagnostics handler end to end: catch path for a thrown request
parse, 400 for a falsy `notebookId`, else the 200 report with the four
read-only queries as its only effects. -/
def diagServe (inp : DiagInput) : RelayOutput :=
  match inp.reqBody with
  | .error m =>
      { status := 500,
        body := .obj [("error", .str (orDefault m "Diagnostics failed")),
                      ("timestamp", .str inp.now)],
        effects := [] }
  | .ok nbIdOpt =>
    if !truthyS nbIdOpt then
      { status := 400, body := .obj [("error", .str "Notebook ID is required")],
        effects := [] }
    else
      let nbId := nbIdOpt.getD ""
      { status := 200, body := diagReportBody inp nbId,
        effects := [Effect.queryNotebook nbId, Effect.querySources nbId,
                    Effect.queryDocuments nbId, Effect.queryChatHistory nbId] }

/-! ## Declarative description of the semantic-failure condition -/

/-- Declarative reading of the per-element test `item.text &&
item.text.includes('Sorry, I encountered an error')` for an element whose
evaluation does not fault: a string `text` containing the apology
substring, or (array `includes`) an array `text` with the apology string as
an exact element. -/
def textIncludesApology : Option Json → Bool
  | some (.str s) => containsSub s apologySubstr
  | some (.arr es) =>
      es.any (fun e => match e with | .str s => s == apologySubstr | _ => false)
  | _ => false

/-- Per-element declarative test applied to the element's `text` property. -/
def itemMatches (it : Json) : Bool :=
  textIncludesApology (it.lookup "text")

/-- Declarative semantic-failure condition on a parsed 2xx body: a truthy
`error` field, or an `output` array with an element whose `text` passes the
apology test.  It agrees with the evaluated check `evalSemanticCheck`
exactly on the bodies whose evaluation does not fault. -/
def specSemFail (j : Json) : Bool :=
  truthyOpt (j.lookup "error") ||
  (match j.lookup "output" with
   | some (.arr items) => items.any itemMatches
   | _ => false)

/-- On a non-faulting element, the evaluated per-element test agrees with
its declarative reading. -/
lemma itemTextCheck_ok (it : Json) (c : Bool) (h : itemTextCheck it = .ok c) :
    itemMatches it = c := by
  unfold itemMatches
  cases it with
  | null => simp [itemTextCheck, Json.getProp, bind, Except.bind] at h
  | obj fields =>
      simp only [itemTextCheck, Json.getProp, bind, Except.bind] at h
      simp only [Json.lookup]
      cases hl : lookupList fields "text" with
      | none =>
          rw [hl] at h
          simp only [truthyOpt, Bool.false_eq_true, if_false, Except.ok.injEq] at h
          simp [textIncludesApology, ← h]
      | some v =>
          rw [hl] at h
          cases v with
          | null =>
              simp only [truthyOpt, Json.truthy, Bool.false_eq_true, if_false,
                         Except.ok.injEq] at h
              simp [textIncludesApology, ← h]
          | bool b =>
              cases b with
              | false =>
                  simp only [truthyOpt, Json.truthy, Bool.false_eq_true, if_false,
                             Except.ok.injEq] at h
                  simp [textIncludesApology, ← h]
              | true => simp [truthyOpt, Json.truthy] at h
          | num n =>
              by_cases hn : n = 0
              · subst hn
                simp only [truthyOpt, Json.truthy] at h
                simp only [bne_self_eq_false, Bool.false_eq_true, if_false,
                           Except.ok.injEq] at h
                simp [textIncludesApology, ← h]
              · simp [truthyOpt, Json.truthy, hn] at h
          | str s =>
              by_cases hs : s = ""
              · subst hs
                simp only [truthyOpt, Json.truthy, bne_self_eq_false,
                           Bool.false_eq_true, if_false, Except.ok.injEq] at h
                simp only [textIncludesApology, ← h]
                decide
              · simp only [truthyOpt, Json.truthy, bne_iff_ne, ne_eq, hs,
                           not_false_eq_true, if_true, Except.ok.injEq] at h
                simp only [textIncludesApology]
                exact h
          | arr es =>
              simp only [truthyOpt, Json.truthy, if_true, Except.ok.injEq] at h
              simpa [textIncludesApology] using h
          | obj f2 => simp [truthyOpt, Json.truthy] at h
  | bool b =>
      simp only [itemTextCheck, Json.getProp, bind, Except.bind, truthyOpt,
                 Bool.false_eq_true, if_false, Except.ok.injEq] at h
      simp [Json.lookup, textIncludesApology, ← h]
  | num n =>
      simp only [itemTextCheck, Json.getProp, bind, Except.bind, truthyOpt,
                 Bool.false_eq_true, if_false, Except.ok.injEq] at h
      simp [Json.lookup, textIncludesApology, ← h]
  | str s =>
      simp only [itemTextCheck, Json.getProp, bind, Except.bind, truthyOpt,
                 Bool.false_eq_true, if_false, Except.ok.injEq] at h
      simp [Json.lookup, textIncludesApology, ← h]
  | arr es =>
      simp only [itemTextCheck, Json.getProp, bind, Except.bind, truthyOpt,
                 Bool.false_eq_true, if_false, Except.ok.injEq] at h
      simp [Json.lookup, textIncludesApology, ← h]

/-- On a non-faulting scan, the evaluated `Array.prototype.some` agrees
with `List.any` of the declarative per-element test. -/
lemma anyThrow_ok (items : List Json) (b : Bool) (h : anyThrow items = .ok b) :
    items.any itemMatches = b := by
  induction items generalizing b with
  | nil =>
      simp only [anyThrow, Except.ok.injEq] at h
      simp [← h]
  | cons it rest ih =>
      simp only [anyThrow, bind, Except.bind] at h
      cases hc : itemTextCheck it with
      | error e => rw [hc] at h; cases h
      | ok c =>
          rw [hc] at h
          have hm := itemTextCheck_ok it c hc
          cases c with
          | true =>
              simp only [if_true, Except.ok.injEq] at h
              simp [List.any_cons, hm, ← h]
          | false =>
              simp only [Bool.false_eq_true, if_false] at h
              simp [List.any_cons, hm, ih b h]

/-- On a non-faulting body, the evaluated error-detection condition agrees
with the declarative condition `specSemFail`. -/
lemma evalSemanticCheck_ok (j : Json) (b : Bool) (h : evalSemanticCheck j = .ok b) :
    specSemFail j = b := by
  cases j with
  | null => simp [evalSemanticCheck, Json.getProp, bind, Except.bind] at h
  | obj fields =>
      simp only [evalSemanticCheck, Json.getProp, bind, Except.bind] at h
      by_cases he : truthyOpt (lookupList fields "error") = true
      · rw [he] at h
        simp only [if_true, Except.ok.injEq] at h
        simp [specSemFail, Json.lookup, he, ← h]
      · simp only [Bool.not_eq_true] at he
        rw [he] at h
        simp only [Bool.false_eq_true, if_false] at h
        cases ho : lookupList fields "output" with
        | none =>
            rw [ho] at h
            simp only [truthyOpt, Bool.false_eq_true, if_false, Except.ok.injEq] at h
            simp [specSemFail, Json.lookup, he, ho, ← h]
        | some ov =>
            rw [ho] at h
            cases ov with
            | null =>
                simp only [truthyOpt, Json.truthy, Bool.false_eq_true, if_false,
                           Except.ok.injEq] at h
                simp [specSemFail, Json.lookup, he, ho, ← h]
            | bool ob =>
                cases ob with
                | false =>
                    simp only [truthyOpt, Json.truthy, Bool.false_eq_true, if_false,
                               Except.ok.injEq] at h
                    simp [specSemFail, Json.lookup, he, ho, ← h]
                | true => simp [truthyOpt, Json.truthy] at h
            | num n =>
                by_cases hn : n = 0
                · subst hn
                  simp only [truthyOpt, Json.truthy, bne_self_eq_false,
                             Bool.false_eq_true, if_false, Except.ok.injEq] at h
                  simp [specSemFail, Json.lookup, he, ho, ← h]
                · simp [truthyOpt, Json.truthy, hn] at h
            | str s =>
                by_cases hs : s = ""
                · subst hs
                  simp only [truthyOpt, Json.truthy, bne_self_eq_false,
                             Bool.false_eq_true, if_false, Except.ok.injEq] at h
                  simp [specSemFail, Json.lookup, he, ho, ← h]
                · simp [truthyOpt, Json.truthy, hs] at h
            | arr items =>
                simp only [truthyOpt, Json.truthy, if_true] at h
                simp [specSemFail, Json.lookup, he, ho, anyThrow_ok items b h]
            | obj f2 => simp [truthyOpt, Json.truthy] at h
  | bool ob =>
      simp only [evalSemanticCheck, Json.getProp, bind, Except.bind, truthyOpt,
                 Bool.false_eq_true, if_false, Except.ok.injEq] at h
      simp [specSemFail, Json.lookup, truthyOpt, ← h]
  | num n =>
      simp only [evalSemanticCheck, Json.getProp, bind, Except.bind, truthyOpt,
                 Bool.false_eq_true, if_false, Except.ok.injEq] at h
      simp [specSemFail, Json.lookup, truthyOpt, ← h]
  | str s =>
      simp only [evalSemanticCheck, Json.getProp, bind, Except.bind, truthyOpt,
                 Bool.false_eq_true, if_false, Except.ok.injEq] at h
      simp [specSemFail, Json.lookup, truthyOpt, ← h]
  | arr es =>
      simp only [evalSemanticCheck, Json.getProp, bind, Except.bind, truthyOpt,
                 Bool.false_eq_true, if_false, Except.ok.injEq] at h
      simp [specSemFail, Json.lookup, truthyOpt, ← h]

/-! ## Concrete webhook bodies -/

/-- The canned apology text of the first classification example. -/
def modelApologyText : String := "Sorry, I encountered an error talking to the model"

/-- The output element `{"text": "Sorry, I encountered an error talking to
the model", "citations": []}`. -/
def apologyItem : Json :=
  .obj [("text", .str modelApologyText), ("citations", .arr [])]

/-- The parse of
`{"output":[{"text":"Sorry, I encountered an error talking to the model","citations":[]}]}`. -/
def apologyBody : Json := .obj [("output", .arr [apologyItem])]

/-- The parse of
`{"output":[{"text":"Paris is the capital of France","citations":[]}]}`. -/
def parisBody : Json :=
  .obj [("output", .arr [.obj [("text", .str "Paris is the capital of France"),
                               ("citations", .arr [])]])]

/-- The parse of
`{"output":[null,{"text":"Sorry, I encountered an error talking to the model","citations":[]}]}`:
an output array holding a `null` element before an apology element. -/
def mixedNullBody : Json := .obj [("output", .arr [Json.null, apologyItem])]

/-! ## Claim theorems -/

/-- C1, counterexample: the body
`{"output":[null,{"text":"Sorry, I encountered an error talking to the model","citations":[]}]}`
with HTTP 200 parses as JSON and contains an `output` array in which some
element's `text` includes the substring "Sorry, I encountered an error",
so the claim classifies it as a semantic failure; the code classifies it as
a success, because `Array.prototype.some` faults on the `null` element
(`null.text` throws) before reaching the apology element and the
surrounding `try` treats the fault as success. -/
theorem C1_classification_cex :
    Json.lookup mixedNullBody "output" = some (.arr [Json.null, apologyItem]) ∧
    Json.lookup apologyItem "text" = some (.str modelApologyText) ∧
    containsSub modelApologyText apologySubstr = true ∧
    classifyV2 200 (some mixedNullBody) = Outcome.success ∧
    Outcome.success ≠ Outcome.semanticFailure :=
  ⟨rfl, rfl, by decide, rfl, by decide⟩

/-- C1, amended: for a 2xx dispatch the relay classifies the outcome as a
semantic failure iff the body parses as JSON and the error-detection check
evaluates without a JavaScript fault to true — that is, the parsed value
has a truthy `error` field, or an `output` array whose left-to-right scan
reaches an element whose `text` passes the apology-substring test without a
fault occurring first; a 2xx body that does not parse as JSON, or whose
check faults (faults are swallowed), is classified as success, and any
non-2xx status is a transport failure.  The three concrete examples of the
claim hold as stated. -/
theorem C1_classification_amended :
    (∀ st b, statusOk st = false → classifyV2 st b = Outcome.transportFailure) ∧
    (∀ st, statusOk st = true → classifyV2 st none = Outcome.success) ∧
    (∀ st j, statusOk st = true → evalSemanticCheck j = .error () →
       classifyV2 st (some j) = Outcome.success) ∧
    (∀ st j, statusOk st = true → evalSemanticCheck j ≠ .error () →
       (classifyV2 st (some j) = Outcome.semanticFailure ↔ specSemFail j = true)) ∧
    classifyV2 200 (some apologyBody) = Outcome.semanticFailure ∧
    classifyV2 200 (some parisBody) = Outcome.success ∧
    (∀ b, classifyV2 503 b = Outcome.transportFailure) := by
  refine ⟨?_, ?_, ?_, ?_, by decide, by decide, fun b => rfl⟩
  · intro st b h
    simp [classifyV2, h]
  · intro st h
    simp [classifyV2, h]
  · intro st j h he
    simp [classifyV2, h, he]
  · intro st j h hne
    cases hc : evalSemanticCheck j with
    | error e => cases e; exact absurd hc hne
    | ok bb =>
        have hs := evalSemanticCheck_ok j bb hc
        cases bb with
        | true => simp [classifyV2, h, hc, hs]
        | false => simp [classifyV2, h, hc, hs]

/-- C1, witness: the amended theorem applied at status 503. -/
theorem C1_classification_amended_witness :
    classifyV2 503 none = Outcome.transportFailure :=
  C1_classification_amended.1 503 none (by decide)

/-! ## Concrete relay inputs -/

/-- A source row with completed processing. -/
def srcCompleted : SourceRow := { id := "s1", processing_status := "completed" }

/-- A fully populated environment. -/
def baseEnv : EnvConfig :=
  { notebookChatUrl := some "https://n8n.example/webhook/chat",
    notebookGenerationAuth := some "secret",
    supabaseUrl := some "https://supabase.example",
    supabaseServiceKey := some "service-key" }

/-- The request body `{session_id: "nb1", message: "hello", user_id: "u1"}`. -/
def okReqBody : ReqBody :=
  { session_id := some "nb1", message := some "hello", user_id := some "u1" }

/-- A relay input whose conversation exists and has a completed source,
parameterised by the environment and the webhook observation. -/
def validInput (env : EnvConfig) (wh : Except (Option String) WebhookResp) : RelayInput :=
  { reqBody := .ok okReqBody,
    notebookData := some (.obj [("id", .str "nb1"), ("title", .str "Notebook"),
                                ("user_id", .str "u1")]),
    notebookError := none,
    sourcesData := some [srcCompleted],
    sourcesError := none,
    userInsertError := none,
    env := env,
    webhook := wh,
    now := "2026-10-11T00:00:00.000Z",
    cloneParse := .ok okReqBody,
    compensatingInsertFails := false }

/-- A 200 plain-text webhook response (`"ok"` does not parse as JSON). -/
def whOk200 : Except (Option String) WebhookResp :=
  .ok { status := 200, bodyText := "ok", bodyJson := none }

/-- `baseEnv` with the webhook endpoint unset. -/
def noUrlEnv : EnvConfig := { baseEnv with notebookChatUrl := none }

/-- `baseEnv` with the shared secret unset. -/
def noAuthEnv : EnvConfig := { baseEnv with notebookGenerationAuth := none }

/-- C2, counterexample: with a valid conversation and a completed source
but no configured webhook endpoint, relay v2 answers with the
configuration error, yet its effect trace already contains the
human-message history insert — the history write happens before the
configuration check, so the claim's "no history write occurs" fails. -/
theorem C2_config_short_circuit_cex :
    serveV2 (validInput noUrlEnv whOk200) =
      { status := 500, body := configUrlBody,
        effects := [Effect.queryNotebook "nb1", Effect.querySources "nb1",
                    Effect.insertHistory (humanInsert "nb1" "hello")] } ∧
    Effect.insertHistory (humanInsert "nb1" "hello")
      ∈ (serveV2 (validInput noUrlEnv whOk200)).effects :=
  ⟨rfl, .tail _ (.tail _ (.head _))⟩

/-- C2, amended: with a non-empty conversation identifier and message and
an otherwise valid, eligible conversation, a missing webhook endpoint (or,
the endpoint present, a missing shared secret) short-circuits to the
configuration error naming the absent value, before any dispatch — but the
human-message history write has already been attempted; the response and
the three effects (notebook query, sources query, human-message insert) are
the only side effects, and no dispatch call occurs. -/
theorem C2_config_short_circuit :
    (∀ (inp : RelayInput) (b : ReqBody),
      inp.reqBody = .ok b →
      truthyS b.session_id = true →
      truthyS b.message = true →
      inp.notebookError = none →
      inp.notebookData.isNone = false →
      inp.sourcesError = none →
      sourcesHasCompleted inp.sourcesData = true →
      truthyS inp.env.notebookChatUrl = false →
      serveV2 inp =
        { status := 500, body := configUrlBody,
          effects := [Effect.queryNotebook (b.session_id.getD ""),
                      Effect.querySources (b.session_id.getD ""),
                      Effect.insertHistory
                        (humanInsert (b.session_id.getD "") (b.message.getD ""))] } ∧
      (∀ u, Effect.dispatchCall u ∉ (serveV2 inp).effects)) ∧
    (∀ (inp : RelayInput) (b : ReqBody),
      inp.reqBody = .ok b →
      truthyS b.session_id = true →
      truthyS b.message = true →
      inp.notebookError = none →
      inp.notebookData.isNone = false →
      inp.sourcesError = none →
      sourcesHasCompleted inp.sourcesData = true →
      truthyS inp.env.notebookChatUrl = true →
      truthyS inp.env.notebookGenerationAuth = false →
      serveV2 inp =
        { status := 500, body := configAuthBody,
          effects := [Effect.queryNotebook (b.session_id.getD ""),
                      Effect.querySources (b.session_id.getD ""),
                      Effect.insertHistory
                        (humanInsert (b.session_id.getD "") (b.message.getD ""))] } ∧
      (∀ u, Effect.dispatchCall u ∉ (serveV2 inp).effects)) := by
  constructor
  · intro inp b hreq hsid hmsg hnbe hnbd hse hsc hurl
    have hmain : serveV2 inp =
        { status := 500, body := configUrlBody,
          effects := [Effect.queryNotebook (b.session_id.getD ""),
                      Effect.querySources (b.session_id.getD ""),
                      Effect.insertHistory
                        (humanInsert (b.session_id.getD "") (b.message.getD ""))] } := by
      simp [serveV2, serveV2Core, hreq, hsid, hmsg, hnbe, hnbd, hse, hsc, hurl]
    refine ⟨hmain, ?_⟩
    intro u
    rw [hmain]
    simp
  · intro inp b hreq hsid hmsg hnbe hnbd hse hsc hurl hauth
    have hmain : serveV2 inp =
        { status := 500, body := configAuthBody,
          effects := [Effect.queryNotebook (b.session_id.getD ""),
                      Effect.querySources (b.session_id.getD ""),
                      Effect.insertHistory
                        (humanInsert (b.session_id.getD "") (b.message.getD ""))] } := by
      simp [serveV2, serveV2Core, hreq, hsid, hmsg, hnbe, hnbd, hse, hsc, hurl, hauth]
    refine ⟨hmain, ?_⟩
    intro u
    rw [hmain]
    simp

/-- C2, witness: the amended theorem applied at concrete inputs missing the
endpoint and, respectively, the shared secret. -/
theorem C2_config_short_circuit_witness :
    (serveV2 (validInput noUrlEnv whOk200)).body = configUrlBody ∧
    (serveV2 (validInput noAuthEnv whOk200)).body = configAuthBody := by
  constructor
  · rw [(C2_config_short_circuit.1 (validInput noUrlEnv whOk200) okReqBody
      rfl rfl rfl rfl rfl rfl rfl rfl).1]
  · rw [(C2_config_short_circuit.2 (validInput noAuthEnv whOk200) okReqBody
      rfl rfl rfl rfl rfl rfl rfl rfl rfl).1]

/-- C3: when `session_id` or `message` is missing or empty (falsy), relay
v2 responds 400 with the validation-error shape carrying the per-field
truthiness flags, and issues no storage or network effect at all. -/
theorem C3_validation_short_circuit :
    ∀ (inp : RelayInput) (b : ReqBody),
      inp.reqBody = .ok b →
      (truthyS b.session_id = false ∨ truthyS b.message = false) →
      serveV2 inp =
        { status := 400,
          body := validationBody (truthyS b.session_id) (truthyS b.message),
          effects := [] } := by
  intro inp b hreq h
  rcases h with h | h <;> simp [serveV2, serveV2Core, hreq, h]

/-- A relay input whose request carries an empty message text. -/
def emptyMsgInput : RelayInput :=
  { (validInput baseEnv whOk200) with
    reqBody := .ok { session_id := some "nb1", message := some "", user_id := none } }

/-- C3, witness: the theorem applied to a request with an empty message. -/
theorem C3_validation_short_circuit_witness :
    serveV2 emptyMsgInput =
      { status := 400, body := validationBody true false, effects := [] } :=
  C3_validation_short_circuit emptyMsgInput
    { session_id := some "nb1", message := some "", user_id := none }
    rfl (Or.inr rfl)

/-- C4: for a valid request whose conversation exists, a sources read that
succeeds but finds no completed source yields the 400 ineligible response
with no dispatch effect, while a failing sources read yields the distinct
500 sources-failure response (also without dispatch); the two response
bodies are different. -/
theorem C4_sources_gate :
    (∀ (inp : RelayInput) (b : ReqBody),
      inp.reqBody = .ok b →
      truthyS b.session_id = true →
      truthyS b.message = true →
      inp.notebookError = none →
      inp.notebookData.isNone = false →
      inp.sourcesError = none →
      sourcesHasCompleted inp.sourcesData = false →
      serveV2 inp =
        { status := 400, body := ineligibleBody,
          effects := [Effect.queryNotebook (b.session_id.getD ""),
                      Effect.querySources (b.session_id.getD "")] } ∧
      (∀ u, Effect.dispatchCall u ∉ (serveV2 inp).effects)) ∧
    (∀ (inp : RelayInput) (b : ReqBody) (m : String),
      inp.reqBody = .ok b →
      truthyS b.session_id = true →
      truthyS b.message = true →
      inp.notebookError = none →
      inp.notebookData.isNone = false →
      inp.sourcesError = some m →
      serveV2 inp =
        { status := 500, body := sourcesFailBody m,
          effects := [Effect.queryNotebook (b.session_id.getD ""),
                      Effect.querySources (b.session_id.getD "")] } ∧
      sourcesFailBody m ≠ ineligibleBody) := by
  constructor
  · intro inp b hreq hsid hmsg hnbe hnbd hse hsc
    have hmain : serveV2 inp =
        { status := 400, body := ineligibleBody,
          effects := [Effect.queryNotebook (b.session_id.getD ""),
                      Effect.querySources (b.session_id.getD "")] } := by
      simp [serveV2, serveV2Core, hreq, hsid, hmsg, hnbe, hnbd, hse, hsc]
    refine ⟨hmain, ?_⟩
    intro u
    rw [hmain]
    simp
  · intro inp b m hreq hsid hmsg hnbe hnbd hse
    refine ⟨by simp [serveV2, serveV2Core, hreq, hsid, hmsg, hnbe, hnbd, hse], ?_⟩
    simp [sourcesFailBody, ineligibleBody]

/-- A relay input whose only source is still processing. -/
def ineligInput : RelayInput :=
  { (validInput baseEnv whOk200) with
    sourcesData := some [{ id := "s1", processing_status := "processing" }] }

/-- A relay input whose sources read failed. -/
def srcFailInput : RelayInput :=
  { (validInput baseEnv whOk200) with
    sourcesData := none, sourcesError := some "network down" }

/-- C4, witness: the theorem applied to a conversation whose only source is
still processing, and to one whose sources read failed. -/
theorem C4_sources_gate_witness :
    (serveV2 ineligInput).body = ineligibleBody ∧
    (serveV2 srcFailInput).body = sourcesFailBody "network down" := by
  constructor
  · rw [(C4_sources_gate.1 ineligInput okReqBody rfl rfl rfl rfl rfl rfl rfl).1]
  · rw [(C4_sources_gate.2 srcFailInput okReqBody "network down"
      rfl rfl rfl rfl rfl rfl).1]

/-- C5: for a valid, eligible, fully configured request whose dispatch
returns HTTP 500, relay v2 responds with an `error` field whose string
contains "500", and appends an assistant-role history row whose
`response_metadata` has `error = true` and `status = 500`. -/
theorem C5_transport_failure_500 :
    ∀ (inp : RelayInput) (b : ReqBody) (r : WebhookResp),
      inp.reqBody = .ok b →
      truthyS b.session_id = true →
      truthyS b.message = true →
      inp.notebookError = none →
      inp.notebookData.isNone = false →
      inp.sourcesError = none →
      sourcesHasCompleted inp.sourcesData = true →
      truthyS inp.env.notebookChatUrl = true →
      truthyS inp.env.notebookGenerationAuth = true →
      inp.webhook = .ok r →
      r.status = 500 →
      (serveV2 inp).status = 500 ∧
      (serveV2 inp).body.lookup "error" =
        some (.str "n8n webhook failed with status: 500") ∧
      containsSub "n8n webhook failed with status: 500" "500" = true ∧
      Effect.insertHistory (transportInsert (b.session_id.getD "") 500)
        ∈ (serveV2 inp).effects ∧
      (transportInsert (b.session_id.getD "") 500).msgType = "ai" ∧
      (transportInsert (b.session_id.getD "") 500).response_metadata =
        .obj [("error", .bool true), ("status", .num 500)] := by
  intro inp b r hreq hsid hmsg hnbe hnbd hse hsc hurl hauth hwh hst
  have hmain : serveV2 inp =
      { status := 500, body := transportBody 500 r.bodyText,
        effects := [Effect.queryNotebook (b.session_id.getD ""),
                    Effect.querySources (b.session_id.getD ""),
                    Effect.insertHistory
                      (humanInsert (b.session_id.getD "") (b.message.getD "")),
                    Effect.dispatchCall (inp.env.notebookChatUrl.getD ""),
                    Effect.insertHistory
                      (transportInsert (b.session_id.getD "") 500)] } := by
    simp [serveV2, serveV2Core, hreq, hsid, hmsg, hnbe, hnbd, hse, hsc, hurl,
          hauth, hwh, hst, statusOk]
  rw [hmain]
  refine ⟨rfl, ?_, by decide, ?_, rfl, rfl⟩
  · rfl
  · exact .tail _ (.tail _ (.tail _ (.tail _ (.head _))))

/-- C5, witness: the theorem applied at a concrete input whose webhook
returns HTTP 500. -/
theorem C5_transport_failure_500_witness :
    (serveV2 (validInput baseEnv
        (.ok { status := 500, bodyText := "boom", bodyJson := none }))).status = 500 ∧
    Effect.insertHistory (transportInsert "nb1" 500)
      ∈ (serveV2 (validInput baseEnv
          (.ok { status := 500, bodyText := "boom", bodyJson := none }))).effects := by
  have h := C5_transport_failure_500 (validInput baseEnv
      (.ok { status := 500, bodyText := "boom", bodyJson := none }))
      okReqBody { status := 500, bodyText := "boom", bodyJson := none }
      rfl rfl rfl rfl rfl rfl rfl rfl rfl rfl rfl
  exact ⟨h.1, h.2.2.2.1⟩

/-- C6: whenever the relay's `try` block throws (request-body parse fault,
or a fault of the dispatch call), the outermost catch handler yields a 500
JSON response that always carries an `error` field, whatever the outcome of
the best-effort body re-extraction (`req.clone().json()` may itself fail)
and of the compensating history write (its faults are swallowed and do not
change the response); the handler is a total function, so the boundary
never propagates a fault. -/
theorem C6_catch_boundary :
    ∀ (inp : RelayInput) (effs : List Effect) (m : Option String),
      serveV2Core inp = .thrown effs m →
      (serveV2 inp).status = 500 ∧
      (serveV2 inp).body = catchBody m ∧
      (serveV2 inp).body.lookup "error" =
        some (.str (orDefault m "Failed to send message to chat service")) ∧
      (∀ b1 b2 : Bool,
        serveV2 { inp with compensatingInsertFails := b1 } =
        serveV2 { inp with compensatingInsertFails := b2 }) ∧
      (∀ cp : Except (Option String) ReqBody,
        (serveV2 { inp with cloneParse := cp }).body = catchBody m) := by
  intro inp effs m h
  have hcore : ∀ cp : Except (Option String) ReqBody,
      serveV2Core { inp with cloneParse := cp } = .thrown effs m := fun _ => h
  refine ⟨?_, ?_, ?_, ?_, ?_⟩
  · simp [serveV2, h, catchHandler]
  · simp [serveV2, h, catchHandler]
  · simp [serveV2, h, catchHandler, catchBody, Json.lookup, lookupList]
  · intro b1 b2
    rfl
  · intro cp
    have h2 : serveV2Core { inp with cloneParse := cp } = .thrown effs m := hcore cp
    simp [serveV2, h2, catchHandler]

/-- A relay input whose request body fails to parse. -/
def badParseInput : RelayInput :=
  { (validInput baseEnv whOk200) with
    reqBody := .error (some "Unexpected end of JSON input"),
    cloneParse := .error (some "Body already consumed") }

/-- C6, witness: the theorem applied to a request whose body parse throws
and whose re-extraction also throws. -/
theorem C6_catch_boundary_witness :
    (serveV2 badParseInput).status = 500 ∧
    (serveV2 badParseInput).body.lookup "error" =
      some (.str "Unexpected end of JSON input") := by
  have h := C6_catch_boundary badParseInput []
      (some "Unexpected end of JSON input") rfl
  exact ⟨h.1, h.2.2.1⟩

/-- A 200 webhook response whose JSON body holds a `null` output element
before an apology element. -/
def whMixed : Except (Option String) WebhookResp :=
  .ok { status := 200,
        bodyText := "\x7b\"output\":[null,\x7b\"text\":\"Sorry, I encountered an error talking to the model\",\"citations\":[]\x7d]\x7d",
        bodyJson := some mixedNullBody }

/-- C10, counterexample: for the 200 body with a `null` output element
before an apology element — a body matching the claim's semantic-failure
condition (its `output` array has an element whose `text` includes the
apology substring) — the claim says relay v1 returns the success envelope
while relay v2 returns a 500 error with an extra history row; in fact the
two implementations return the identical success response, because relay
v2's classification faults on the `null` element and is swallowed. -/
theorem C10_equivalence_cex :
    serveV1 (validInput baseEnv whMixed) = serveV2 (validInput baseEnv whMixed) ∧
    (serveV2 (validInput baseEnv whMixed)).status = 200 ∧
    Json.lookup mixedNullBody "output" = some (.arr [Json.null, apologyItem]) ∧
    Json.lookup apologyItem "text" = some (.str modelApologyText) ∧
    containsSub modelApologyText apologySubstr = true :=
  ⟨rfl, rfl, rfl, rfl, by decide⟩

/-- C10, amended: the two relay implementations produce the same response
and the same effect trace whenever the webhook observation is not an
evaluated semantic failure — that is, whenever it is a thrown fetch, a
non-2xx status, a non-JSON 2xx body, or a 2xx JSON body whose
error-detection check does not evaluate to true (including bodies on which
the check faults); when a valid, eligible, configured request's 2xx JSON
body does evaluate to a semantic failure, relay v1 returns the success
envelope while relay v2 returns the 500 semantic error and appends exactly
one extra assistant error history row. -/
theorem C10_equivalence :
    (∀ inp : RelayInput,
      (∀ (r : WebhookResp) (j : Json),
        inp.webhook = .ok r → statusOk r.status = true → r.bodyJson = some j →
        evalSemanticCheck j ≠ .ok true) →
      serveV1 inp = serveV2 inp) ∧
    (∀ (inp : RelayInput) (b : ReqBody) (r : WebhookResp) (j : Json),
      inp.reqBody = .ok b →
      truthyS b.session_id = true →
      truthyS b.message = true →
      inp.notebookError = none →
      inp.notebookData.isNone = false →
      inp.sourcesError = none →
      sourcesHasCompleted inp.sourcesData = true →
      truthyS inp.env.notebookChatUrl = true →
      truthyS inp.env.notebookGenerationAuth = true →
      inp.webhook = .ok r →
      statusOk r.status = true →
      r.bodyJson = some j →
      evalSemanticCheck j = .ok true →
      serveV1 inp =
        { status := 200, body := successBody r.bodyText,
          effects := [Effect.queryNotebook (b.session_id.getD ""),
                      Effect.querySources (b.session_id.getD ""),
                      Effect.insertHistory
                        (humanInsert (b.session_id.getD "") (b.message.getD "")),
                      Effect.dispatchCall (inp.env.notebookChatUrl.getD "")] } ∧
      serveV2 inp =
        { status := 500, body := semanticBody j,
          effects := [Effect.queryNotebook (b.session_id.getD ""),
                      Effect.querySources (b.session_id.getD ""),
                      Effect.insertHistory
                        (humanInsert (b.session_id.getD "") (b.message.getD "")),
                      Effect.dispatchCall (inp.env.notebookChatUrl.getD ""),
                      Effect.insertHistory
                        (semanticInsert (b.session_id.getD "") j inp.now)] }) := by
  constructor
  · intro inp hno
    have hcore : serveV1Core inp = serveV2Core inp := by
      unfold serveV1Core serveV2Core
      cases hreq : inp.reqBody with
      | error m => rfl
      | ok b =>
        by_cases h1 : (!truthyS b.session_id || !truthyS b.message) = true
        · simp only [h1, if_true]
        · simp only [Bool.not_eq_true] at h1
          simp only [h1, Bool.false_eq_true, if_false]
          by_cases h2 : (inp.notebookError.isSome || inp.notebookData.isNone) = true
          · simp only [h2, if_true]
          · simp only [Bool.not_eq_true] at h2
            simp only [h2, Bool.false_eq_true, if_false]
            cases hse : inp.sourcesError with
            | some m => rfl
            | none =>
              by_cases h3 : (!sourcesHasCompleted inp.sourcesData) = true
              · simp only [h3, if_true]
              · simp only [Bool.not_eq_true] at h3
                simp only [h3, Bool.false_eq_true, if_false]
                by_cases h4 : (!truthyS inp.env.notebookChatUrl) = true
                · simp only [h4, if_true]
                · simp only [Bool.not_eq_true] at h4
                  simp only [h4, Bool.false_eq_true, if_false]
                  by_cases h5 : (!truthyS inp.env.notebookGenerationAuth) = true
                  · simp only [h5, if_true]
                  · simp only [Bool.not_eq_true] at h5
                    simp only [h5, Bool.false_eq_true, if_false]
                    cases hwh : inp.webhook with
                    | error m => rfl
                    | ok r =>
                      by_cases h6 : (!statusOk r.status) = true
                      · simp only [h6, if_true]
                      · simp only [Bool.not_eq_true] at h6
                        simp only [h6, Bool.false_eq_true, if_false]
                        have hst : statusOk r.status = true := by
                          revert h6; cases statusOk r.status <;> simp
                        cases hbj : r.bodyJson with
                        | none => rfl
                        | some j =>
                          dsimp only
                          cases hc : evalSemanticCheck j with
                          | error e => rfl
                          | ok bb =>
                            cases bb with
                            | false => rfl
                            | true => exact absurd hc (hno r j hwh hst hbj)
    unfold serveV1 serveV2
    rw [hcore]
  · intro inp b r j hreq hsid hmsg hnbe hnbd hse hsc hurl hauth hwh hst hbj hsem
    constructor
    · simp [serveV1, serveV1Core, hreq, hsid, hmsg, hnbe, hnbd, hse, hsc, hurl,
            hauth, hwh, hst]
    · simp [serveV2, serveV2Core, hreq, hsid, hmsg, hnbe, hnbd, hse, hsc, hurl,
            hauth, hwh, hst, hbj, hsem]

/-- A 200 webhook response whose JSON body is the plain apology envelope. -/
def whApology : Except (Option String) WebhookResp :=
  .ok { status := 200,
        bodyText := "\x7b\"output\":[\x7b\"text\":\"Sorry, I encountered an error talking to the model\",\"citations\":[]\x7d]\x7d",
        bodyJson := some apologyBody }

/-- C10, witness: the equivalence part applied to a plain-text 200
dispatch, and the divergence part applied to an apology-envelope 200
dispatch. -/
theorem C10_equivalence_witness :
    serveV1 (validInput baseEnv whOk200) = serveV2 (validInput baseEnv whOk200) ∧
    (serveV1 (validInput baseEnv whApology)).status = 200 ∧
    (serveV2 (validInput baseEnv whApology)).status = 500 := by
  refine ⟨C10_equivalence.1 (validInput baseEnv whOk200) ?_, ?_⟩
  · intro r j hr hst hbj
    cases hr
    cases hbj
  · have h := C10_equivalence.2 (validInput baseEnv whApology) okReqBody
      { status := 200,
        bodyText := "\x7b\"output\":[\x7b\"text\":\"Sorry, I encountered an error talking to the model\",\"citations\":[]\x7d]\x7d",
        bodyJson := some apologyBody }
      apologyBody rfl rfl rfl rfl rfl rfl rfl rfl rfl rfl rfl rfl rfl
    rw [h.1, h.2]
    exact ⟨rfl, rfl⟩

/-- C7: on a diagnostics request with a truthy `notebookId`, the report's
`recommendations` list is exactly the fixed-order concatenation of the six
condition-gated remediation strings (missing endpoint, missing secret,
notebook not found, no completed source, no indexed documents, endpoint
failing the "webhook" substring test), and its `overallStatus` is
`HEALTHY` iff that list is empty. -/
theorem C7_diag_recommendations :
    ∀ (inp : DiagInput) (nbOpt : Option String),
      inp.reqBody = .ok nbOpt →
      truthyS nbOpt = true →
      (diagServe inp).body.lookup "recommendations" =
        some (.arr ((
          (if !truthyS inp.env.notebookChatUrl then [recText1] else []) ++
          (if !truthyS inp.env.notebookGenerationAuth then [recText2] else []) ++
          (if !inp.notebookData.isSome then [recText3] else []) ++
          (if !diagHasCompleted inp.sourcesData then [recText4] else []) ++
          (if !decide (0 < countOf inp.documentsData) then [recText5] else []) ++
          (if urlShown inp.env.notebookChatUrl != "" &&
              !containsSub (urlShown inp.env.notebookChatUrl) "webhook"
           then [recText6] else [])).map Json.str)) ∧
      ((diagServe inp).body.lookup "overallStatus" = some (.str "HEALTHY") ↔
        diagRecommendations inp = []) := by
  intro inp nbOpt hreq ht
  have hserve : diagServe inp =
      { status := 200, body := diagReportBody inp (nbOpt.getD ""),
        effects := [Effect.queryNotebook (nbOpt.getD ""),
                    Effect.querySources (nbOpt.getD ""),
                    Effect.queryDocuments (nbOpt.getD ""),
                    Effect.queryChatHistory (nbOpt.getD "")] } := by
    simp [diagServe, hreq, ht]
  rw [hserve]
  constructor
  · rfl
  · have hlook : Json.lookup (diagReportBody inp (nbOpt.getD "")) "overallStatus" =
        some (.str (diagOverallStatus inp)) := rfl
    rw [hlook]
    unfold diagOverallStatus
    cases hrec : diagRecommendations inp with
    | nil => simp
    | cons a rest => simp

/-- A diagnostics input whose environment and storage are fully healthy. -/
def healthyDiagInput : DiagInput :=
  { reqBody := .ok (some "nb1"), now := "2026-10-11T00:00:00.000Z",
    env := baseEnv,
    notebookData := some (.obj [("id", .str "nb1")]), notebookError := none,
    sourcesData := some [{ id := "s1", title := "Doc", processing_status := "completed" }],
    sourcesError := none,
    documentsData := some ["d1"], documentsError := none,
    chatData := some [], chatError := none }

/-- C7, witness: the theorem applied to a healthy input, whose empty
remediation list forces the `HEALTHY` verdict. -/
theorem C7_diag_recommendations_witness :
    (diagServe healthyDiagInput).body.lookup "overallStatus" =
      some (.str "HEALTHY") :=
  (C7_diag_recommendations healthyDiagInput (some "nb1") rfl rfl).2.mpr rfl

/-- A diagnostics input on which every storage query fails. -/
def stormDiagInput : DiagInput :=
  { reqBody := .ok (some "nb1"), now := "2026-10-11T00:00:00.000Z",
    env := baseEnv,
    notebookData := none, notebookError := some "storage unreachable",
    sourcesData := none, sourcesError := some "storage unreachable",
    documentsData := none, documentsError := some "storage unreachable",
    chatData := none, chatError := some "storage unreachable" }

/-- C8, counterexample: with every storage query failing (storage
unreachable), the diagnostics response is a 200 report with per-section
embedded `error` fields and computed partial results (recommendations
included), not a response with a single top-level `error` field — the
claim's degradation shape does not happen for storage failures. -/
theorem C8_diag_degradation_cex :
    (diagServe stormDiagInput).status = 200 ∧
    (diagServe stormDiagInput).body.lookup "error" = none ∧
    (diagServe stormDiagInput).body.lookup "recommendations" =
      some (.arr [.str recText3, .str recText4, .str recText5]) ∧
    ((diagServe stormDiagInput).body.lookup "sources").bind
        (fun s => s.lookup "error") = some (.str "storage unreachable") ∧
    ((diagServe stormDiagInput).body.lookup "notebook").bind
        (fun s => s.lookup "error") = some (.str "storage unreachable") :=
  ⟨rfl, rfl, rfl, rfl, rfl⟩

/-- C8, amended: per-query storage failures do not degrade the diagnostics
report — each failing section embeds its own `error` field and the whole
200 report (partial results) is still returned with no top-level `error`
key; only a fault thrown in the handler (e.g. the request-body parse)
degrades to the single top-level error-and-timestamp response; in every
case the diagnostics check performs no history write. -/
theorem C8_diag_degradation :
    (∀ (inp : DiagInput) (m : Option String),
      inp.reqBody = .error m →
      diagServe inp =
        { status := 500,
          body := .obj [("error", .str (orDefault m "Diagnostics failed")),
                        ("timestamp", .str inp.now)],
          effects := [] }) ∧
    (∀ (inp : DiagInput) (nbOpt : Option String) (e : String),
      inp.reqBody = .ok nbOpt →
      truthyS nbOpt = true →
      inp.sourcesError = some e →
      (diagServe inp).status = 200 ∧
      (diagServe inp).body.lookup "error" = none ∧
      ((diagServe inp).body.lookup "sources").bind
        (fun s => s.lookup "error") = some (.str e)) ∧
    (∀ (inp : DiagInput) (row : HistoryInsert),
      Effect.insertHistory row ∉ (diagServe inp).effects) := by
  refine ⟨?_, ?_, ?_⟩
  · intro inp m h
    simp [diagServe, h]
  · intro inp nbOpt e hreq ht hse
    have hserve : diagServe inp =
        { status := 200, body := diagReportBody inp (nbOpt.getD ""),
          effects := [Effect.queryNotebook (nbOpt.getD ""),
                      Effect.querySources (nbOpt.getD ""),
                      Effect.queryDocuments (nbOpt.getD ""),
                      Effect.queryChatHistory (nbOpt.getD "")] } := by
      simp [diagServe, hreq, ht]
    refine ⟨by rw [hserve], by rw [hserve]; rfl, ?_⟩
    rw [hserve]
    show (some (sourcesSection inp.sourcesData inp.sourcesError)).bind
        (fun s => s.lookup "error") = some (.str e)
    rw [hse]
    rfl
  · intro inp row
    cases hreq : inp.reqBody with
    | error m => simp [diagServe, hreq]
    | ok nbOpt =>
        by_cases ht : truthyS nbOpt = true
        · simp [diagServe, hreq, ht]
        · simp only [Bool.not_eq_true] at ht
          simp [diagServe, hreq, ht]

/-- A diagnostics input whose request-body parse throws. -/
def thrownDiagInput : DiagInput :=
  { stormDiagInput with reqBody := .error (some "Unexpected end of JSON input") }

/-- C8, witness: the amended theorem applied to a thrown request-body
parse and to the all-queries-failing input. -/
theorem C8_diag_degradation_witness :
    (diagServe thrownDiagInput).body =
      .obj [("error", .str "Unexpected end of JSON input"),
            ("timestamp", .str "2026-10-11T00:00:00.000Z")] ∧
    (diagServe stormDiagInput).status = 200 := by
  constructor
  · rw [C8_diag_degradation.1 thrownDiagInput
      (some "Unexpected end of JSON input") rfl]
    rfl
  · exact (C8_diag_degradation.2.1 stormDiagInput (some "nb1")
      "storage unreachable" rfl rfl rfl).1

/-- C9: the verdict and the remediation list (content and order) of a
diagnostics report are a deterministic function of the observed environment
and storage state — two runs over the same state, differing only in their
clock value, produce the same `overallStatus` and the same
`recommendations`. -/
theorem C9_diag_deterministic :
    ∀ (rq : Except (Option String) (Option String)) (env : EnvConfig)
      (nd : Option Json) (ne : Option String)
      (sd : Option (List DiagSourceRow)) (se : Option String)
      (dd : Option (List String)) (de : Option String)
      (cd : Option (List ChatRow)) (ce : Option String)
      (t1 t2 : String),
      let inp1 : DiagInput :=
        { reqBody := rq, now := t1, env := env, notebookData := nd,
          notebookError := ne, sourcesData := sd, sourcesError := se,
          documentsData := dd, documentsError := de, chatData := cd,
          chatError := ce }
      let inp2 : DiagInput :=
        { reqBody := rq, now := t2, env := env, notebookData := nd,
          notebookError := ne, sourcesData := sd, sourcesError := se,
          documentsData := dd, documentsError := de, chatData := cd,
          chatError := ce }
      diagRecommendations inp1 = diagRecommendations inp2 ∧
      diagOverallStatus inp1 = diagOverallStatus inp2 ∧
      (diagServe inp1).body.lookup "recommendations" =
        (diagServe inp2).body.lookup "recommendations" ∧
      (diagServe inp1).body.lookup "overallStatus" =
        (diagServe inp2).body.lookup "overallStatus" := by
  intro rq env nd ne sd se dd de cd ce t1 t2
  refine ⟨rfl, rfl, ?_, ?_⟩ <;>
  · cases hrq : rq with
    | error m => rfl
    | ok nbOpt =>
        by_cases ht : truthyS nbOpt = true
        · simp only [diagServe, ht, if_true]
          rfl
        · simp only [Bool.not_eq_true] at ht
          simp [diagServe, ht]

end SendChat
